import Mathlib

/-!
Shallow embedding of the caching and rate-limiting layer of `src/cache.py`
(repository BLT-Leaf).  Timestamps (`Date.now() / 1000`, `time.time()`) are
modelled as rationals; Python dicts are modelled as maps `K → Option V`;
the database functions of `database.py` (not among the given sources) are
modelled from the spec's Durable Store Adapter interface and carry explicit
success flags for failure injection.  `async`/`await` plays no semantic role
in this layer (single-threaded cooperative scheduling, no interleaving is
claimed), so every operation is a pure state-passing function.
-/

variable {V : Type}

/-- Functional model of a Python dict lookup-insert: `m[k] = v`. -/
def mset {K : Type} [DecidableEq K] (k : K) (v : V) (m : K → Option V) : K → Option V :=
  fun k' => if k' = k then some v else m k'

/-- Functional model of a Python dict deletion: `del m[k]` (total: absent keys stay absent). -/
def mremove {K : Type} [DecidableEq K] (k : K) (m : K → Option V) : K → Option V :=
  fun k' => if k' = k then none else m k'

/-- Truncation of a rational toward zero: the behavior of Python's `int()` on a float. -/
def pyInt (q : ℚ) : ℤ := if 0 ≤ q then ⌊q⌋ else ⌈q⌉

/-- Rate limit threshold for readiness endpoints: 30 requests per window per IP. -/
def READINESS_RATE_LIMIT : ℕ := 30

/-- Rate limit window in seconds. -/
def READINESS_RATE_WINDOW : ℚ := 60

/-- Readiness cache TTL in seconds (10 minutes). -/
def READINESS_CACHE_TTL : ℚ := 600

/-- Timeline cache TTL in seconds (30 minutes). -/
def TIMELINE_CACHE_TTL : ℚ := 1800

/-- Entry of `_readiness_rate_limit`: `{'count': int, 'window_start': float}`. -/
structure RateData where
  count : ℕ
  window_start : ℚ
  deriving DecidableEq

/-- Embedding of `check_rate_limit(ip_address)`.  The current time (`Date.now() / 1000`)
and the global map `_readiness_rate_limit` are passed explicitly; the result is the
returned pair `(allowed, retry_after)` together with the updated map. -/
def check_rate_limit (now : ℚ) (ip_address : String) (st : String → Option RateData) :
    (Bool × ℤ) × (String → Option RateData) :=
  match st ip_address with
  | none => ((true, 0), mset ip_address ⟨1, now⟩ st)
  | some rate_data =>
    let window_elapsed := now - rate_data.window_start
    if window_elapsed ≥ READINESS_RATE_WINDOW then
      ((true, 0), mset ip_address ⟨1, now⟩ st)
    else if rate_data.count < READINESS_RATE_LIMIT then
      ((true, 0), mset ip_address ⟨rate_data.count + 1, rate_data.window_start⟩ st)
    else
      ((false, pyInt (READINESS_RATE_WINDOW - window_elapsed) + 1), st)

/-- Entry of the in-memory caches and of the modelled store tier:
`{'data': ..., 'timestamp': float}`. -/
structure MemEntry (V : Type) where
  data : V
  timestamp : ℚ
  deriving DecidableEq

/-- State touched by the readiness cache family: the in-memory map
`_readiness_cache` plus the durable store's readiness records (each with the
stored timestamp the adapter keeps). -/
structure ReadinessState (V : Type) where
  mem : ℕ → Option (MemEntry V)
  store : ℕ → Option (MemEntry V)

/-- Modelled from the spec: `load_readiness_from_db` lives in `database.py`, which is
not among the given sources.  Per the spec's Durable Store Adapter interface the
readiness load surfaces the record's stored timestamp implicitly and a record older
than the TTL is treated as absent, its deletion requested best-effort (`deleteOk`
injects the outcome; a deletion failure is non-fatal and leaves the record). -/
def load_readiness_from_db (now : ℚ) (deleteOk : Bool) (pr_id : ℕ)
    (store : ℕ → Option (MemEntry V)) : Option V × (ℕ → Option (MemEntry V)) :=
  match store pr_id with
  | none => (none, store)
  | some e =>
    if now - e.timestamp < READINESS_CACHE_TTL then (some e.data, store)
    else (none, if deleteOk then mremove pr_id store else store)

/-- Modelled from the spec: `save_readiness_to_db` of `database.py`; the store stamps
the record with the write time, and `saveOk` injects a store-unavailable failure
(the failed write leaves the store unchanged). -/
def save_readiness_to_db (saveOk : Bool) (pr_id : ℕ) (data : V) (now : ℚ)
    (store : ℕ → Option (MemEntry V)) : ℕ → Option (MemEntry V) :=
  if saveOk then mset pr_id ⟨data, now⟩ store else store

/-- Modelled from the spec: `delete_readiness_from_db` of `database.py`; failure is
non-fatal to callers and leaves the record in place (`deleteOk` injects the outcome). -/
def delete_readiness_from_db (deleteOk : Bool) (pr_id : ℕ)
    (store : ℕ → Option (MemEntry V)) : ℕ → Option (MemEntry V) :=
  if deleteOk then mremove pr_id store else store

/-- Shared database-fallback tail of `get_readiness_cache` (the code after the
memory-tier check): load from the store and, on a hit, promote into the memory
tier under the current time. -/
def readinessDbFallback (now : ℚ) (deleteOk : Bool) (pr_id : ℕ) (st : ReadinessState V) :
    Option V × ReadinessState V :=
  match load_readiness_from_db now deleteOk pr_id st.store with
  | (some db_data, store') => (some db_data, ⟨mset pr_id ⟨db_data, now⟩ st.mem, store'⟩)
  | (none, store') => (none, ⟨st.mem, store'⟩)

/-- Embedding of `get_readiness_cache(env, pr_id)`: memory tier first (an expired
entry is removed before falling through), then the database fallback. -/
def get_readiness_cache (now : ℚ) (deleteOk : Bool) (pr_id : ℕ) (st : ReadinessState V) :
    Option V × ReadinessState V :=
  match st.mem pr_id with
  | some cache_entry =>
    if now - cache_entry.timestamp < READINESS_CACHE_TTL then (some cache_entry.data, st)
    else readinessDbFallback now deleteOk pr_id ⟨mremove pr_id st.mem, st.store⟩
  | none => readinessDbFallback now deleteOk pr_id st

/-- Embedding of `set_readiness_cache(env, pr_id, data)`: unconditional memory-tier
write at the current time, then the store write (whose failure is injected by
`saveOk` and does not roll the memory write back). -/
def set_readiness_cache (now : ℚ) (saveOk : Bool) (pr_id : ℕ) (data : V)
    (st : ReadinessState V) : ReadinessState V :=
  ⟨mset pr_id ⟨data, now⟩ st.mem, save_readiness_to_db saveOk pr_id data now st.store⟩

/-- Embedding of `invalidate_readiness_cache(env, pr_id)`: unconditional memory-tier
removal, then the store delete (failure injected by `deleteOk`). -/
def invalidate_readiness_cache (deleteOk : Bool) (pr_id : ℕ)
    (st : ReadinessState V) : ReadinessState V :=
  ⟨mremove pr_id st.mem, delete_readiness_from_db deleteOk pr_id st.store⟩

/-- Embedding of `get_timeline_cache_key(owner, repo, pr_number)`. -/
def get_timeline_cache_key (owner repo : String) (pr_number : ℕ) : String :=
  owner ++ "/" ++ repo ++ "/" ++ toString pr_number

/-- State touched by the timeline cache family: the in-memory map `_timeline_cache`
(keyed by the derived cache key) plus the durable store's timeline records (keyed
by the `(owner, repo, pr_number)` triple, each with its stored timestamp). -/
structure TimelineState (V : Type) where
  mem : String → Option (MemEntry V)
  store : String × String × ℕ → Option (MemEntry V)

/-- Modelled from the spec: `load_timeline_from_db` of `database.py` returns
`(data, storedTimestamp)` on a hit and `(absent, absent)` otherwise, verbatim from
the store (the TTL check on this path is done by the caller in `cache.py`). -/
def load_timeline_from_db (owner repo : String) (pr_number : ℕ)
    (store : String × String × ℕ → Option (MemEntry V)) : Option (V × ℚ) :=
  (store (owner, repo, pr_number)).map fun e => (e.data, e.timestamp)

/-- Modelled from the spec: `save_timeline_to_db` of `database.py`; the store stamps
the record with the write time, `saveOk` injects failure. -/
def save_timeline_to_db (saveOk : Bool) (owner repo : String) (pr_number : ℕ) (data : V)
    (now : ℚ) (store : String × String × ℕ → Option (MemEntry V)) :
    String × String × ℕ → Option (MemEntry V) :=
  if saveOk then mset (owner, repo, pr_number) ⟨data, now⟩ store else store

/-- Modelled from the spec: `delete_timeline_from_db` of `database.py`; failure is
non-fatal and leaves the record (`deleteOk` injects the outcome). -/
def delete_timeline_from_db (deleteOk : Bool) (owner repo : String) (pr_number : ℕ)
    (store : String × String × ℕ → Option (MemEntry V)) :
    String × String × ℕ → Option (MemEntry V) :=
  if deleteOk then mremove (owner, repo, pr_number) store else store

/-- Database-fallback tail of `get_timeline_cache`: `if db_data and db_timestamp:`
guards the hit (a zero stored timestamp is falsy in Python and is treated as a
plain miss); a fresh record is promoted into the memory tier under the store's
original timestamp; a stale one is deleted best-effort and reported absent. -/
def timelineDbFallback (now : ℚ) (deleteOk : Bool) (owner repo : String) (pr_number : ℕ)
    (st : TimelineState V) : Option V × TimelineState V :=
  match load_timeline_from_db owner repo pr_number st.store with
  | some (db_data, db_timestamp) =>
    if db_timestamp = 0 then (none, st)
    else if now - db_timestamp < TIMELINE_CACHE_TTL then
      (some db_data,
        ⟨mset (get_timeline_cache_key owner repo pr_number) ⟨db_data, db_timestamp⟩ st.mem,
          st.store⟩)
    else
      (none, ⟨st.mem, delete_timeline_from_db deleteOk owner repo pr_number st.store⟩)
  | none => (none, st)

/-- Embedding of `get_timeline_cache(env, owner, repo, pr_number)`: memory tier
first under the derived key (an expired entry is removed before falling through),
then the database fallback. -/
def get_timeline_cache (now : ℚ) (deleteOk : Bool) (owner repo : String) (pr_number : ℕ)
    (st : TimelineState V) : Option V × TimelineState V :=
  match st.mem (get_timeline_cache_key owner repo pr_number) with
  | some cache_entry =>
    if now - cache_entry.timestamp < TIMELINE_CACHE_TTL then (some cache_entry.data, st)
    else timelineDbFallback now deleteOk owner repo pr_number
      ⟨mremove (get_timeline_cache_key owner repo pr_number) st.mem, st.store⟩
  | none => timelineDbFallback now deleteOk owner repo pr_number st

/-- Embedding of `set_timeline_cache(env, owner, repo, pr_number, data)`. -/
def set_timeline_cache (now : ℚ) (saveOk : Bool) (owner repo : String) (pr_number : ℕ)
    (data : V) (st : TimelineState V) : TimelineState V :=
  ⟨mset (get_timeline_cache_key owner repo pr_number) ⟨data, now⟩ st.mem,
    save_timeline_to_db saveOk owner repo pr_number data now st.store⟩

/-- Embedding of `invalidate_timeline_cache(env, owner, repo, pr_number)`. -/
def invalidate_timeline_cache (deleteOk : Bool) (owner repo : String) (pr_number : ℕ)
    (st : TimelineState V) : TimelineState V :=
  ⟨mremove (get_timeline_cache_key owner repo pr_number) st.mem,
    delete_timeline_from_db deleteOk owner repo pr_number st.store⟩

/-- Quota header value as `set_rate_limit_data` receives it: Python `None`, an
integer, or a string. -/
inductive PyVal where
  | none
  | num (n : ℤ)
  | str (s : String)

/-- Numeric value of a digit list (most significant first). -/
def digitsVal (ds : List Char) : ℕ :=
  ds.foldl (fun a c => a * 10 + (c.toNat - 48)) 0

/-- Surrounding-whitespace strip of a character list. -/
def stripChars (l : List Char) : List Char :=
  ((l.dropWhile Char.isWhitespace).reverse.dropWhile Char.isWhitespace).reverse

/-- Decimal-string case of Python's `int(s)`: surrounding whitespace, an optional
sign, then one or more ASCII digits; `none` models the `ValueError` of any other
string (underscore grouping and non-ASCII digits are not modelled; the quota
headers at issue are plain decimal strings or absent). -/
def parsePyIntStr (s : String) : Option ℤ :=
  match stripChars s.data with
  | [] => Option.none
  | c :: rest =>
    let sgn : ℤ := if c = '-' then -1 else 1
    let ds := if c = '-' || c = '+' then rest else c :: rest
    if !ds.isEmpty && ds.all Char.isDigit then some (sgn * digitsVal ds) else Option.none

/-- Coercion used by `set_rate_limit_data`: `int(x) if x is not None else 0`.
Returns `none` exactly when Python's `int()` would raise. -/
def safeInt : PyVal → Option ℤ
  | PyVal.none => some 0
  | PyVal.num n => some n
  | PyVal.str s => parsePyIntStr s

/-- The global dict `_rate_limit_cache`.  Its initial value maps `limit`,
`remaining` and `reset` to `None` and `timestamp` to `0`; the keys `used` and
`status` are only present after a successful update, modelled as `Option` fields
that start out `none` (the never-touched `data` key is omitted). -/
structure RateLimitCache where
  limit : Option ℤ
  remaining : Option ℤ
  reset : Option ℤ
  used : Option ℤ
  timestamp : ℚ
  status : Option String
  deriving DecidableEq

/-- Initial value of `_rate_limit_cache` at module load. -/
def rate_limit_cache_init : RateLimitCache :=
  ⟨Option.none, Option.none, Option.none, Option.none, 0, Option.none⟩

/-- Embedding of `set_rate_limit_data(limit, remaining, reset)`: the three
coercions run inside one `try`; if any raises (`safeInt` returns `none`) the
`except` clause swallows the error and the cache is left unchanged, otherwise the
slot is rewritten with `used = limit - remaining` at the current `time.time()`. -/
def set_rate_limit_data (now : ℚ) (limit remaining reset : PyVal)
    (st : RateLimitCache) : RateLimitCache :=
  match safeInt limit, safeInt remaining, safeInt reset with
  | some l, some r, some s => ⟨some l, some r, some s, some (l - r), now, some "active"⟩
  | _, _, _ => st

/-- Embedding of `get_current_rate_limit()`: the `limit`, `remaining` and `reset`
fields of the slot, verbatim. -/
def get_current_rate_limit (st : RateLimitCache) : Option ℤ × Option ℤ × Option ℤ :=
  (st.limit, st.remaining, st.reset)

/-- State after n consecutive `check_rate_limit` calls for one ip at one time
(statement scaffolding for the rate-limiter scenarios). -/
def rateCalls (now : ℚ) (ip : String) : ℕ → (String → Option RateData) → (String → Option RateData)
  | 0, st => st
  | n + 1, st => (check_rate_limit now ip (rateCalls now ip n st)).2

/-- Empty readiness-family state over natural-number payloads (concrete scenario input). -/
def emptyR : ReadinessState ℕ :=
  ⟨fun _ => Option.none, fun _ => Option.none⟩

/-- Empty timeline-family state over natural-number payloads (concrete scenario input). -/
def emptyT : TimelineState ℕ :=
  ⟨fun _ => Option.none, fun _ => Option.none⟩

/-- Concrete readiness state: cold memory tier, one store record saved at time 1
(concrete scenario input). -/
def staleR : ReadinessState ℕ :=
  ⟨fun _ => Option.none, mset 1 ⟨7, 1⟩ (fun _ => Option.none)⟩

/-- Concrete timeline state: cold memory tier, one store record saved at time 1
(concrete scenario input). -/
def staleT : TimelineState ℕ :=
  ⟨fun _ => Option.none, mset ("o", "r", 2) ⟨7, 1⟩ (fun _ => Option.none)⟩

/-- Lookup of the rate window after k consecutive admits for one ip at one time,
starting from an empty map: the counter climbs to k while the window start stays put. -/
theorem rateCalls_lookup (now : ℚ) (ip : String) :
    ∀ k : ℕ, 1 ≤ k → k ≤ 30 →
      rateCalls now ip k (fun _ => Option.none) ip = some ⟨k, now⟩ := by
  intro k
  induction k with
  | zero => intro h; omega
  | succ n ih =>
    intro _ h30
    by_cases hn : n = 0
    · subst hn
      simp [rateCalls, check_rate_limit, mset]
    · have hlk := ih (by omega) (by omega)
      have hlt : n < READINESS_RATE_LIMIT := by
        simp only [READINESS_RATE_LIMIT]; omega
      norm_num [rateCalls, check_rate_limit, hlk, READINESS_RATE_WINDOW, hlt, mset]

/-- C1: for each family, a value stored by `set` at time t0 is returned by `get` at
time t1 exactly when t1 - t0 is below the family TTL, and this holds both when the
read is served by the memory tier (the set-then-get states) and when it is loaded
from the durable store behind a cold memory tier (the explicitly constructed
store-only states).  The readiness store tier is spec-modelled; the timeline store
path requires a nonzero stored timestamp because a zero timestamp is falsy in
`if db_data and db_timestamp:`. -/
theorem C1_ttl_both_tiers (st : ReadinessState V) (st' : TimelineState V)
    (sr : ℕ → Option (MemEntry V)) (sl : String × String × ℕ → Option (MemEntry V))
    (pr_id : ℕ) (owner repo : String) (n : ℕ) (v : V) (t0 t1 : ℚ) (dOk : Bool)
    (h0 : t0 ≠ 0) :
    ((get_readiness_cache t1 dOk pr_id (set_readiness_cache t0 true pr_id v st)).1
        = if t1 - t0 < READINESS_CACHE_TTL then some v else Option.none)
    ∧ ((get_readiness_cache t1 dOk pr_id ⟨fun _ => Option.none, mset pr_id ⟨v, t0⟩ sr⟩).1
        = if t1 - t0 < READINESS_CACHE_TTL then some v else Option.none)
    ∧ ((get_timeline_cache t1 dOk owner repo n (set_timeline_cache t0 true owner repo n v st')).1
        = if t1 - t0 < TIMELINE_CACHE_TTL then some v else Option.none)
    ∧ ((get_timeline_cache t1 dOk owner repo n
          ⟨fun _ => Option.none, mset (owner, repo, n) ⟨v, t0⟩ sl⟩).1
        = if t1 - t0 < TIMELINE_CACHE_TTL then some v else Option.none) := by
  refine ⟨?_, ?_, ?_, ?_⟩
  · by_cases h : t1 - t0 < READINESS_CACHE_TTL
    · simp [get_readiness_cache, set_readiness_cache, save_readiness_to_db, mset, h]
    · simp [get_readiness_cache, set_readiness_cache, readinessDbFallback,
        load_readiness_from_db, save_readiness_to_db, mset, mremove, h]
  · by_cases h : t1 - t0 < READINESS_CACHE_TTL
    · simp [get_readiness_cache, readinessDbFallback, load_readiness_from_db, mset, h]
    · simp [get_readiness_cache, readinessDbFallback, load_readiness_from_db, mset, mremove, h]
  · by_cases h : t1 - t0 < TIMELINE_CACHE_TTL
    · simp [get_timeline_cache, set_timeline_cache, save_timeline_to_db, mset, h]
    · simp [get_timeline_cache, set_timeline_cache, timelineDbFallback, load_timeline_from_db,
        save_timeline_to_db, delete_timeline_from_db, mset, mremove, h, apply_ite]
  · by_cases h : t1 - t0 < TIMELINE_CACHE_TTL
    · simp [get_timeline_cache, timelineDbFallback, load_timeline_from_db, mset, h, h0]
    · simp [get_timeline_cache, timelineDbFallback, load_timeline_from_db,
        delete_timeline_from_db, mset, mremove, h, h0, apply_ite]

/-- Witness for C1: concrete run with payload 7 stored at time 5 and read back at
time 9, well inside both TTLs. -/
theorem C1_ttl_both_tiers_witness :
    ((5:ℚ) ≠ 0)
    ∧ (((get_readiness_cache 9 false 1 (set_readiness_cache 5 true 1 (7:ℕ) emptyR)).1
          = if (9:ℚ) - 5 < READINESS_CACHE_TTL then some 7 else Option.none)
      ∧ ((get_readiness_cache 9 false 1
            ⟨fun _ => Option.none, mset 1 ⟨7, 5⟩ (fun _ => Option.none)⟩).1
          = if (9:ℚ) - 5 < READINESS_CACHE_TTL then some 7 else Option.none)
      ∧ ((get_timeline_cache 9 false "o" "r" 2
            (set_timeline_cache 5 true "o" "r" 2 (7:ℕ) emptyT)).1
          = if (9:ℚ) - 5 < TIMELINE_CACHE_TTL then some 7 else Option.none)
      ∧ ((get_timeline_cache 9 false "o" "r" 2
            ⟨fun _ => Option.none, mset ("o", "r", 2) ⟨7, 5⟩ (fun _ => Option.none)⟩).1
          = if (9:ℚ) - 5 < TIMELINE_CACHE_TTL then some 7 else Option.none)) :=
  ⟨by norm_num,
    @C1_ttl_both_tiers ℕ emptyR emptyT (fun _ => Option.none) (fun _ => Option.none)
      1 "o" "r" 2 7 5 9 false (by norm_num)⟩

/-- C2 counterexample: from an empty window map, the 31st `check_rate_limit` call at
one timestamp is denied with retry_after = int(60 - 0) + 1 = 61, which does not lie
in the claimed interval [1, 60]. -/
theorem C2_retry_after_cex :
    ((check_rate_limit 0 "ip1" (rateCalls 0 "ip1" 30 (fun _ => Option.none))).1 = (false, 61))
    ∧ ¬((1:ℤ) ≤ 61 ∧ (61:ℤ) ≤ 60) := by
  constructor
  · have hlk := rateCalls_lookup 0 "ip1" 30 (by norm_num) (by norm_num)
    norm_num [check_rate_limit, hlk, READINESS_RATE_WINDOW, READINESS_RATE_LIMIT, pyInt,
      Int.floor_ofNat]
  · norm_num

/-- C2 amended: at one timestamp the first 30 `check_rate_limit` calls for one ip are
all allowed with retry_after 0, and the 31st is denied with
retry_after = floor(60 - elapsed) + 1 = 61 (elapsed is 0, so the value exceeds the
claimed upper bound 60; it lies in [1, 61]). -/
theorem C2_rate_limit_31st (now : ℚ) (k : ℕ) (hk : k < 30) :
    ((check_rate_limit now "ip1" (rateCalls now "ip1" k (fun _ => Option.none))).1 = (true, 0))
    ∧ ((check_rate_limit now "ip1" (rateCalls now "ip1" 30 (fun _ => Option.none))).1
        = (false, 61)) := by
  constructor
  · rcases Nat.eq_zero_or_pos k with h0 | h1
    · subst h0
      norm_num [rateCalls, check_rate_limit]
    · have hlk := rateCalls_lookup now "ip1" k h1 (by omega)
      have hlt : k < READINESS_RATE_LIMIT := by
        simp only [READINESS_RATE_LIMIT]; omega
      norm_num [check_rate_limit, hlk, READINESS_RATE_WINDOW, hlt]
  · have hlk := rateCalls_lookup now "ip1" 30 (by norm_num) (by norm_num)
    norm_num [check_rate_limit, hlk, READINESS_RATE_WINDOW, READINESS_RATE_LIMIT, pyInt,
      Int.floor_ofNat]

/-- Witness for the amended C2: the 1st and the 31st call at timestamp 0. -/
theorem C2_rate_limit_31st_witness :
    ((0:ℕ) < 30)
    ∧ (((check_rate_limit 0 "ip1" (rateCalls 0 "ip1" 0 (fun _ => Option.none))).1 = (true, 0))
      ∧ ((check_rate_limit 0 "ip1" (rateCalls 0 "ip1" 30 (fun _ => Option.none))).1
          = (false, 61))) :=
  ⟨by decide, C2_rate_limit_31st 0 0 (by decide)⟩

/-- C3 counterexample: value 5 is set for PR 1 (memory and store), then invalidated
with a failing store delete, then read back immediately: the memory entry is gone
but `get` falls back to the store, whose fresh surviving record is returned, so the
read yields the value instead of the claimed absent. -/
theorem C3_invalidate_cex :
    ((get_readiness_cache 0 true 1 (invalidate_readiness_cache false 1
        (set_readiness_cache 0 true 1 (5:ℕ) emptyR))).1 = some 5)
    ∧ ((some 5 : Option ℕ) ≠ Option.none) := by
  constructor
  · norm_num [get_readiness_cache, invalidate_readiness_cache, set_readiness_cache,
      readinessDbFallback, load_readiness_from_db, delete_readiness_from_db,
      save_readiness_to_db, READINESS_CACHE_TTL, mset, mremove, emptyR]
  · simp

/-- C3 amended: `invalidate` immediately followed by `get` returns absent whenever
the store delete succeeded, and the memory-tier removal is unconditional (it happens
whether or not the store delete fails); but when the store delete fails and leaves a
fresh record, `get` re-loads that record from the store tier. -/
theorem C3_invalidate_then_get (st : ReadinessState V) (pr_id : ℕ) (now : ℚ)
    (dOk dOk' : Bool) :
    ((get_readiness_cache now dOk' pr_id (invalidate_readiness_cache true pr_id st)).1
        = Option.none)
    ∧ ((invalidate_readiness_cache dOk pr_id st).mem pr_id = Option.none) := by
  constructor
  · simp [get_readiness_cache, invalidate_readiness_cache, readinessDbFallback,
      load_readiness_from_db, delete_readiness_from_db, mremove]
  · simp [invalidate_readiness_cache, mremove]

/-- C4: behind an absent-or-expired memory entry, a store record older than the
family TTL makes `get` return absent; the record's deletion is requested (on
success it is gone from the store), and a failed deletion still leaves `get`
returning absent rather than failing.  Proved for both families (the readiness
store path is spec-modelled; the timeline one is the code of `get_timeline_cache`). -/
theorem C4_stale_store_record (st : ReadinessState V) (st' : TimelineState V)
    (pr_id : ℕ) (owner repo : String) (n : ℕ) (e e' : MemEntry V) (now : ℚ)
    (dOk dOk' : Bool)
    (hm : st.mem pr_id = Option.none
      ∨ ∃ e0, st.mem pr_id = some e0 ∧ READINESS_CACHE_TTL ≤ now - e0.timestamp)
    (hs : st.store pr_id = some e)
    (hstale : READINESS_CACHE_TTL ≤ now - e.timestamp)
    (hm' : st'.mem (get_timeline_cache_key owner repo n) = Option.none
      ∨ ∃ e0, st'.mem (get_timeline_cache_key owner repo n) = some e0
          ∧ TIMELINE_CACHE_TTL ≤ now - e0.timestamp)
    (hs' : st'.store (owner, repo, n) = some e') (hz : e'.timestamp ≠ 0)
    (hstale' : TIMELINE_CACHE_TTL ≤ now - e'.timestamp) :
    ((get_readiness_cache now dOk pr_id st).1 = Option.none)
    ∧ ((get_readiness_cache now true pr_id st).2.store pr_id = Option.none)
    ∧ ((get_timeline_cache now dOk' owner repo n st').1 = Option.none)
    ∧ ((get_timeline_cache now true owner repo n st').2.store (owner, repo, n)
        = Option.none) := by
  have hr : ¬ (now - e.timestamp < READINESS_CACHE_TTL) := not_lt.mpr hstale
  have ht : ¬ (now - e'.timestamp < TIMELINE_CACHE_TTL) := not_lt.mpr hstale'
  refine ⟨?_, ?_, ?_, ?_⟩
  · rcases hm with hmn | ⟨e0, hme, hstale0⟩
    · simp [get_readiness_cache, readinessDbFallback, load_readiness_from_db, hmn, hs, hr]
    · have h0 : ¬ (now - e0.timestamp < READINESS_CACHE_TTL) := not_lt.mpr hstale0
      simp [get_readiness_cache, readinessDbFallback, load_readiness_from_db, hme, hs, hr,
        h0, mremove]
  · rcases hm with hmn | ⟨e0, hme, hstale0⟩
    · simp [get_readiness_cache, readinessDbFallback, load_readiness_from_db, hmn, hs, hr,
        mremove]
    · have h0 : ¬ (now - e0.timestamp < READINESS_CACHE_TTL) := not_lt.mpr hstale0
      simp [get_readiness_cache, readinessDbFallback, load_readiness_from_db, hme, hs, hr,
        h0, mremove]
  · rcases hm' with hmn | ⟨e0, hme, hstale0⟩
    · simp [get_timeline_cache, timelineDbFallback, load_timeline_from_db,
        delete_timeline_from_db, hmn, hs', hr, ht, hz, apply_ite]
    · have h0 : ¬ (now - e0.timestamp < TIMELINE_CACHE_TTL) := not_lt.mpr hstale0
      simp [get_timeline_cache, timelineDbFallback, load_timeline_from_db,
        delete_timeline_from_db, hme, hs', ht, h0, hz, mremove, apply_ite]
  · rcases hm' with hmn | ⟨e0, hme, hstale0⟩
    · simp [get_timeline_cache, timelineDbFallback, load_timeline_from_db,
        delete_timeline_from_db, hmn, hs', ht, hz, mremove, apply_ite]
    · have h0 : ¬ (now - e0.timestamp < TIMELINE_CACHE_TTL) := not_lt.mpr hstale0
      simp [get_timeline_cache, timelineDbFallback, load_timeline_from_db,
        delete_timeline_from_db, hme, hs', ht, h0, hz, mremove, apply_ite]

/-- Witness for C4: records stored at time 1 read at time 2000, stale for both TTLs. -/
theorem C4_stale_store_record_witness :
    (staleR.mem 1 = Option.none
      ∨ ∃ e0, staleR.mem 1 = some e0 ∧ READINESS_CACHE_TTL ≤ 2000 - e0.timestamp)
    ∧ (staleR.store 1 = some ⟨7, 1⟩)
    ∧ (READINESS_CACHE_TTL ≤ 2000 - (⟨7, 1⟩ : MemEntry ℕ).timestamp)
    ∧ (staleT.mem (get_timeline_cache_key "o" "r" 2) = Option.none
      ∨ ∃ e0, staleT.mem (get_timeline_cache_key "o" "r" 2) = some e0
          ∧ TIMELINE_CACHE_TTL ≤ 2000 - e0.timestamp)
    ∧ (staleT.store ("o", "r", 2) = some ⟨7, 1⟩)
    ∧ ((⟨7, 1⟩ : MemEntry ℕ).timestamp ≠ 0)
    ∧ (TIMELINE_CACHE_TTL ≤ 2000 - (⟨7, 1⟩ : MemEntry ℕ).timestamp)
    ∧ (((get_readiness_cache 2000 false 1 staleR).1 = Option.none)
      ∧ ((get_readiness_cache 2000 true 1 staleR).2.store 1 = Option.none)
      ∧ ((get_timeline_cache 2000 false "o" "r" 2 staleT).1 = Option.none)
      ∧ ((get_timeline_cache 2000 true "o" "r" 2 staleT).2.store ("o", "r", 2)
          = Option.none)) :=
  ⟨Or.inl rfl, rfl, by norm_num [READINESS_CACHE_TTL], Or.inl rfl, by decide,
    by norm_num, by norm_num [TIMELINE_CACHE_TTL],
    @C4_stale_store_record ℕ staleR staleT 1 "o" "r" 2 ⟨7, 1⟩ ⟨7, 1⟩ 2000 false false
      (Or.inl rfl) rfl (by norm_num [READINESS_CACHE_TTL]) (Or.inl rfl) (by decide)
      (by norm_num) (by norm_num [TIMELINE_CACHE_TTL])⟩

/-- C5 counterexample: with a non-numeric limit string, `set_rate_limit_data` leaves
the slot untouched instead of storing it with the unparsable value coerced to zero:
the remaining field keeps its old value (here the initial None) rather than
becoming 5. -/
theorem C5_quota_coercion_cex :
    (set_rate_limit_data 100 (PyVal.str "abc") (PyVal.num 5) (PyVal.num 7)
        rate_limit_cache_init = rate_limit_cache_init)
    ∧ (rate_limit_cache_init.remaining = Option.none)
    ∧ ((Option.none : Option ℤ) ≠ some 5) := by
  refine ⟨by decide, rfl, by decide⟩

/-- C5 amended: `set_rate_limit_data` never raises (it is total here, mirroring the
catch-all except clause); absent (None) inputs are coerced to zero and numeric
strings are parsed, with used = limit - remaining stored in the slot; but a
non-numeric string aborts the whole update, leaving the slot unchanged, rather than
being coerced to zero. -/
theorem C5_quota_update (now : ℚ) (l r : ℤ) (st : RateLimitCache) :
    (set_rate_limit_data now (PyVal.num l) PyVal.none (PyVal.num r) st
        = ⟨some l, some 0, some r, some l, now, some "active"⟩)
    ∧ (set_rate_limit_data now (PyVal.str "abc") (PyVal.num l) (PyVal.num r) st = st)
    ∧ (get_current_rate_limit (set_rate_limit_data now (PyVal.str "60") (PyVal.str "59")
        (PyVal.str "1700000000") st) = (some 60, some 59, some 1700000000)) := by
  have habc : parsePyIntStr "abc" = Option.none := by decide
  have h60 : parsePyIntStr "60" = some 60 := by decide
  have h59 : parsePyIntStr "59" = some 59 := by decide
  have h17 : parsePyIntStr "1700000000" = some 1700000000 := by decide
  refine ⟨?_, ?_, ?_⟩
  · simp [set_rate_limit_data, safeInt]
  · simp [set_rate_limit_data, safeInt, habc]
  · simp [set_rate_limit_data, get_current_rate_limit, safeInt, h60, h59, h17]

/-- C6 counterexample: before any update, the read operation returns the initial
None placeholders of `_rate_limit_cache`, not the claimed all-zero fields. -/
theorem C6_initial_read_cex :
    (get_current_rate_limit rate_limit_cache_init
        = (Option.none, Option.none, Option.none))
    ∧ (((Option.none : Option ℤ), (Option.none : Option ℤ), (Option.none : Option ℤ))
        ≠ (some 0, some 0, some 0)) := by
  refine ⟨rfl, by decide⟩

/-- C6 amended: `get_current_rate_limit` returns the slot's limit, remaining and
reset fields verbatim — after an update it returns the stored values, and before
any update it returns the initial None placeholders (not zeroes). -/
theorem C6_read_verbatim (st : RateLimitCache) (now : ℚ) (l r s : ℤ) :
    (get_current_rate_limit st = (st.limit, st.remaining, st.reset))
    ∧ (get_current_rate_limit
        (set_rate_limit_data now (PyVal.num l) (PyVal.num r) (PyVal.num s) st)
        = (some l, some r, some s))
    ∧ (get_current_rate_limit rate_limit_cache_init
        = (Option.none, Option.none, Option.none)) := by
  refine ⟨rfl, ?_, rfl⟩
  simp [set_rate_limit_data, get_current_rate_limit, safeInt]

/-- C7: `set` immediately followed by `get` of the same key at the same time returns
the value just written, for both cache families, even when the durable store save
failed: the memory tier is written first and is not rolled back. -/
theorem C7_set_then_get (st : ReadinessState V) (st' : TimelineState V) (now : ℚ)
    (pr_id : ℕ) (v w : V) (saveOk saveOk' dOk dOk' : Bool) (owner repo : String) (n : ℕ) :
    ((get_readiness_cache now dOk pr_id (set_readiness_cache now saveOk pr_id v st)).1
        = some v)
    ∧ ((get_timeline_cache now dOk' owner repo n
        (set_timeline_cache now saveOk' owner repo n w st')).1 = some w) := by
  constructor
  · norm_num [get_readiness_cache, set_readiness_cache, mset, READINESS_CACHE_TTL]
  · norm_num [get_timeline_cache, set_timeline_cache, mset, TIMELINE_CACHE_TTL]

/-- C8: once a window entry holds count 30 started at t0, an admit at t0 + 61 sees
the window as rolled over: it is allowed with retry_after 0 and the entry is
replaced by count 1 with the new current time as window start (a full fixed-window
reset, not an increment to 31). -/
theorem C8_window_rollover (st : String → Option RateData) (ip : String) (t0 : ℚ)
    (h : st ip = some ⟨30, t0⟩) :
    ((check_rate_limit (t0 + 61) ip st).1 = (true, 0))
    ∧ ((check_rate_limit (t0 + 61) ip st).2 ip = some ⟨1, t0 + 61⟩) := by
  have h61 : t0 + 61 - t0 = (61:ℚ) := by ring
  constructor
  · norm_num [check_rate_limit, h, h61, READINESS_RATE_WINDOW]
  · norm_num [check_rate_limit, h, h61, READINESS_RATE_WINDOW, mset]

/-- Witness for C8: an exhausted window started at time 0, admitted again at 61. -/
theorem C8_window_rollover_witness :
    (mset "ip1" (⟨30, 0⟩ : RateData) (fun _ => Option.none) "ip1" = some ⟨30, 0⟩)
    ∧ (((check_rate_limit ((0:ℚ) + 61) "ip1"
          (mset "ip1" ⟨30, 0⟩ (fun _ => Option.none))).1 = (true, 0))
      ∧ ((check_rate_limit ((0:ℚ) + 61) "ip1"
          (mset "ip1" ⟨30, 0⟩ (fun _ => Option.none))).2 "ip1" = some ⟨1, (0:ℚ) + 61⟩)) :=
  ⟨by decide,
    C8_window_rollover (mset "ip1" ⟨30, 0⟩ (fun _ => Option.none)) "ip1" 0 (by decide)⟩

/-- C9: when `get` promotes a still-fresh store record behind a cold memory tier,
the readiness family writes the memory entry with the current time t1, while the
timeline family writes it with the record's original store timestamp. -/
theorem C9_promotion_timestamps (sr : ℕ → Option (MemEntry V))
    (sl : String × String × ℕ → Option (MemEntry V)) (pr_id : ℕ) (owner repo : String)
    (n : ℕ) (v w : V) (t0 t0' t1 : ℚ) (dOk dOk' : Bool)
    (hfresh : t1 - t0 < READINESS_CACHE_TTL) (hz : t0' ≠ 0)
    (hfresh' : t1 - t0' < TIMELINE_CACHE_TTL) :
    ((get_readiness_cache t1 dOk pr_id
        ⟨fun _ => Option.none, mset pr_id ⟨v, t0⟩ sr⟩).2.mem pr_id = some ⟨v, t1⟩)
    ∧ ((get_timeline_cache t1 dOk' owner repo n
        ⟨fun _ => Option.none, mset (owner, repo, n) ⟨w, t0'⟩ sl⟩).2.mem
          (get_timeline_cache_key owner repo n) = some ⟨w, t0'⟩) := by
  constructor
  · simp [get_readiness_cache, readinessDbFallback, load_readiness_from_db, mset, hfresh]
  · simp [get_timeline_cache, timelineDbFallback, load_timeline_from_db, mset, hfresh', hz]

/-- Witness for C9: records stored at time 5, promoted at time 9. -/
theorem C9_promotion_timestamps_witness :
    ((9:ℚ) - 5 < READINESS_CACHE_TTL)
    ∧ ((5:ℚ) ≠ 0)
    ∧ ((9:ℚ) - 5 < TIMELINE_CACHE_TTL)
    ∧ (((get_readiness_cache 9 false 1
          ⟨fun _ => Option.none, mset 1 ⟨7, 5⟩ (fun _ => Option.none)⟩).2.mem 1
            = some ⟨7, 9⟩)
      ∧ ((get_timeline_cache 9 false "o" "r" 2
          ⟨fun _ => Option.none, mset ("o", "r", 2) ⟨8, 5⟩ (fun _ => Option.none)⟩).2.mem
            (get_timeline_cache_key "o" "r" 2) = some ⟨8, 5⟩)) :=
  ⟨by norm_num [READINESS_CACHE_TTL], by norm_num, by norm_num [TIMELINE_CACHE_TTL],
    @C9_promotion_timestamps ℕ (fun _ => Option.none) (fun _ => Option.none) 1 "o" "r" 2
      7 8 5 5 9 false false (by norm_num [READINESS_CACHE_TTL]) (by norm_num)
      (by norm_num [TIMELINE_CACHE_TTL])⟩

/-- C10 counterexample: the key derived from ("a/b", "c", 1) and from ("a", "b/c", 1)
is "a/b/c/1" — the derivation appends the PR number — not the "a/b/c" the claim
names. -/
theorem C10_key_value_cex :
    (get_timeline_cache_key "a/b" "c" 1 = "a/b/c/1")
    ∧ (get_timeline_cache_key "a" "b/c" 1 = "a/b/c/1")
    ∧ ("a/b/c/1" ≠ "a/b/c") := by
  refine ⟨by decide, by decide, by decide⟩

/-- C10 amended: the timeline cache-key derivation is not injective: the distinct
triples ("a/b", "c", 1) and ("a", "b/c", 1) derive the same key — "a/b/c/1", not the
claim's "a/b/c" — so a timeline entry set under one triple is read back by a `get`
under the other, and an `invalidate` under the other removes its memory entry. -/
theorem C10_key_collision (st : TimelineState V) (now : ℚ) (v : V) (saveOk dOk dOk' : Bool) :
    (get_timeline_cache_key "a/b" "c" 1 = get_timeline_cache_key "a" "b/c" 1)
    ∧ (get_timeline_cache_key "a/b" "c" 1 = "a/b/c/1")
    ∧ ((("a/b", "c", 1) : String × String × ℕ) ≠ ("a", "b/c", 1))
    ∧ ((get_timeline_cache now dOk "a" "b/c" 1
          (set_timeline_cache now true "a/b" "c" 1 v st)).1 = some v)
    ∧ ((invalidate_timeline_cache dOk' "a" "b/c" 1
          (set_timeline_cache now saveOk "a/b" "c" 1 v st)).mem
            (get_timeline_cache_key "a/b" "c" 1) = Option.none) := by
  have hk : get_timeline_cache_key "a" "b/c" 1 = get_timeline_cache_key "a/b" "c" 1 := by
    decide
  refine ⟨by decide, by decide, by decide, ?_, ?_⟩
  · norm_num [get_timeline_cache, set_timeline_cache, hk, mset, TIMELINE_CACHE_TTL]
  · simp [invalidate_timeline_cache, set_timeline_cache, hk, mset, mremove]
